import Mathlib

/-!
Shallow embedding of src/deepwork.py (class DeepWorkTracker and its main entry).

Modelling conventions:
* Python floats are modelled as exact rationals; round(x, 2) is round-half-to-even
  of x * 100, divided by 100.
* Instants are natural numbers of seconds since 0001-01-01T00:00:00 (datetime.min);
  a date is its day ordinal, so day 0 is 0001-01-01, which is a Monday in the
  proleptic Gregorian calendar.
* Strings handed to datetime.fromisoformat are either well-formed ISO timestamps,
  carried as the instant they denote, or other text on which parsing raises.
* Raised Python exceptions are the error side of Except; printing is ignored except
  where a claim depends on which branch ran.
-/

namespace DeepWork

/-- Python exception classes arising on the paths modelled here. -/
inductive PyErr where
  | valueError
  | typeError
  | attributeError
  | jsonDecodeError
  deriving DecidableEq

/-- A Python string in a timestamp position: either a well-formed ISO string carrying
the instant it denotes (seconds since datetime.min), or other text. -/
inductive PyStr where
  | ts (t : ℕ)
  | raw (s : String)
  deriving DecidableEq

/-- datetime.fromisoformat: yields the denoted instant on a well-formed ISO string and
raises ValueError on anything else. -/
def fromisoformat : PyStr → Except PyErr ℕ
  | .ts t => .ok t
  | .raw _ => .error .valueError

/-- Whether a string is a well-formed ISO timestamp (parseable by fromisoformat). -/
def PyStr.isTs : PyStr → Bool
  | .ts _ => true
  | .raw _ => false

/-- The date of an instant as a day ordinal; day 0 is datetime.min.date(). -/
def dateOf (t : ℕ) : ℕ := t / 86400

/-- date.weekday() with Monday = 0: day 0 (0001-01-01) is a Monday, so the index is
the ordinal mod 7. -/
def weekday (d : ℕ) : ℕ := d % 7

/-- Round a rational to the nearest integer, halves to even, as Python round does on
exactly represented values. -/
def roundHalfEven (q : ℚ) : ℤ :=
  if q - ⌊q⌋ < 1/2 then ⌊q⌋
  else if 1/2 < q - ⌊q⌋ then ⌊q⌋ + 1
  else if ⌊q⌋ % 2 = 0 then ⌊q⌋ else ⌊q⌋ + 1

/-- Python round(x, 2) on the rational model of floats. -/
def round2 (q : ℚ) : ℚ := roundHalfEven (q * 100) / 100

/-- One stored session record, shaped like the dict appended by end_session. -/
structure Session where
  start_time : PyStr
  end_time : PyStr
  duration : ℚ
  category : String
  description : String
  deriving DecidableEq

/-- The persisted document self.data: a list of sessions and a goals dict from
category to weekly hours, the dict modelled as an association list. -/
structure DWData where
  sessions : List Session
  goals : List (String × ℚ)
  deriving DecidableEq

/-- The empty ledger that load_data installs when the file is missing. -/
def emptyData : DWData := ⟨[], []⟩

/-- Content of the backing file: a JSON document of the expected shape, or bytes that
json.load rejects (an empty or corrupt file). -/
inductive FileContent where
  | jsonOf (d : DWData)
  | invalid
  deriving DecidableEq

/-- State of the backing file on disk. -/
inductive FileState where
  | absent
  | present (c : FileContent)
  deriving DecidableEq

/-- load_data: json.load of the backing file; FileNotFoundError is caught and yields
the empty ledger; any other failure (empty or corrupt file) escapes as a
JSONDecodeError. -/
def load_data : FileState → Except PyErr DWData
  | .absent => .ok emptyData
  | .present (.jsonOf d) => .ok d
  | .present .invalid => .error .jsonDecodeError

/-- save_data: open(filename, w) truncates the file first, then
json.dump(self.data, f, incident=2) raises TypeError before writing anything,
because incident (a misspelling of indent) is not a keyword json.dump accepts.
The file is left empty, which json.load rejects. -/
def save_data (d : DWData) (fs : FileState) : FileState × Except PyErr Unit :=
  (.present .invalid, .error .typeError)

/-- end_session(start_time, category, description): parses start_time (a ValueError
escapes before anything is appended), takes now as end_time, appends the session with
the rounded duration in hours, then calls save_data; the call's outcome is save_data's
outcome. Returns the in-memory data, the file state and the outcome. -/
def end_session (data : DWData) (fs : FileState) (start_time : PyStr)
    (category description : String) (now : ℕ) :
    DWData × FileState × Except PyErr Unit :=
  match fromisoformat start_time with
  | .error e => (data, fs, .error e)
  | .ok s =>
    let duration : ℚ := (((now : ℤ) - (s : ℤ) : ℤ) : ℚ) / 3600
    let session : Session :=
      { start_time := start_time, end_time := .ts now, duration := round2 duration,
        category := category, description := description }
    let data2 : DWData := { data with sessions := data.sessions ++ [session] }
    let r := save_data data2 fs
    (data2, r.1, r.2)

/-- The summary periods admitted by the command line (argparse choices). -/
inductive Period where
  | daily
  | weekly
  | all
  deriving DecidableEq

/-- The cutoff date computed at the top of get_summary: today for daily, today minus
today's weekday index for weekly (the Monday of the current week), and
datetime.min.date(), day 0, otherwise. -/
def startDateCutoff (period : Period) (now : ℕ) : ℕ :=
  match period with
  | .daily => dateOf now
  | .weekly => dateOf now - weekday (dateOf now)
  | .all => 0

/-- The filtering list comprehension of get_summary: keeps sessions whose parsed start
date is greater than or equal to the cutoff; a ValueError from fromisoformat escapes. -/
def filterSessions : List Session → ℕ → Except PyErr (List Session)
  | [], _ => .ok []
  | s :: rest, cutoff =>
    match fromisoformat s.start_time with
    | .error e => .error e
    | .ok t =>
      match filterSessions rest cutoff with
      | .error e => .error e
      | .ok tail => .ok (if cutoff ≤ dateOf t then s :: tail else tail)

/-- Specification helper: the boolean the comprehension filter amounts to on a session
that parses; false marks a session whose start_time does not parse. -/
def keepAt (cutoff : ℕ) (s : Session) : Bool :=
  match s.start_time with
  | .ts t => cutoff ≤ dateOf t
  | .raw _ => false

/-- The dict get_summary returns, built from a filtered session list. category_time is
the defaultdict of per-category duration sums rounded per key, read back through
.get(category, 0): absent categories read 0. -/
structure Summary where
  total_time : ℚ
  category_time : String → ℚ
  num_sessions : ℕ

/-- The aggregates get_summary computes from the filtered sessions. -/
def summarize (filtered : List Session) : Summary :=
  { total_time := round2 ((filtered.map (fun s => s.duration)).sum)
    category_time := fun c =>
      round2 (((filtered.filter (fun s => s.category == c)).map (fun s => s.duration)).sum)
    num_sessions := filtered.length }

/-- get_summary(period): the cutoff, the filter, then the three aggregates. -/
def get_summary (data : DWData) (period : Period) (now : ℕ) : Except PyErr Summary :=
  (filterSessions data.sessions (startDateCutoff period now)).map summarize

/-- get_total_time: the sum of every stored duration, rounded to 2 decimals. -/
def get_total_time (data : DWData) : ℚ :=
  round2 ((data.sessions.map (fun s => s.duration)).sum)

/-- track_goals: with no goals it prints a hint and returns; with any goals its loop
header evaluates goals.item(), and dict has no method item (a misspelling of items),
so AttributeError is raised before any progress figure is computed. -/
def track_goals (data : DWData) (now : ℕ) : Except PyErr Unit :=
  if data.goals.isEmpty then .ok () else .error .attributeError

/-- calculate_productivity_score: its first statement evaluates self.summary, and the
class has no attribute summary (the method is named get_summary), so every call raises
AttributeError before any weekly figure is read. -/
def calculate_productivity_score (data : DWData) (now : ℕ) : Except PyErr ℚ :=
  .error .attributeError

/-- main: while the subcommand table is still being built, the pomodoro
add_argument call passes the misspelled keyword defualt=25 (line 173), which
argparse rejects with TypeError; this is raised before the later
subparsers.add_paerser (line 181) and parser.parser_args (line 189) misspellings
could fail, and before any action is dispatched, so every invocation, whatever
the argv, crashes with TypeError and the backing file is never touched. -/
def main (argv : List String) (fs : FileState) : FileState × Except PyErr Unit :=
  (fs, .error .typeError)

/-- Concrete session starting at instant 0 (day 0), used to evaluate the code. -/
def sampleSession : Session := ⟨.ts 0, .ts 3600, 1, "focus", "x"⟩

/-- Concrete one-session ledger with one goal, used to evaluate the code. -/
def sampleFull : DWData := ⟨[sampleSession], [("focus", 10)]⟩

/-- A session whose start date (day 7) lies after day 0. -/
def futureSession : Session := ⟨.ts 604800, .ts 608400, 1, "writing", "tomorrow"⟩

/-- Ledger holding only futureSession. -/
def dataFuture : DWData := ⟨[futureSession], []⟩

/-- A session on day 8 with duration 3. -/
def weekSession : Session := ⟨.ts 691200, .ts 694800, 3, "focus", "now"⟩

/-- A session on day 0 whose stored duration is the negative number -2, as a loaded
file may contain and as end_session itself can append. -/
def oldNegSession : Session := ⟨.ts 0, .ts 3600, -2, "focus", "old"⟩

/-- Ledger mixing weekSession with the negative-duration oldNegSession. -/
def dataNeg : DWData := ⟨[weekSession, oldNegSession], []⟩

/-- Rounding an integer leaves it unchanged. -/
theorem roundHalfEven_intCast (n : ℤ) : roundHalfEven (n : ℚ) = n := by
  unfold roundHalfEven
  rw [Int.floor_intCast, sub_self]
  norm_num

/-- Evaluation rule for round2 when the scaled value is an integer. -/
theorem round2_eq (q : ℚ) (n : ℤ) (h : q * 100 = (n : ℚ)) : round2 q = (n : ℚ) / 100 := by
  unfold round2
  rw [h, roundHalfEven_intCast]

/-- roundHalfEven is bounded below by the floor. -/
theorem le_roundHalfEven (q : ℚ) : ⌊q⌋ ≤ roundHalfEven q := by
  unfold roundHalfEven
  split_ifs <;> omega

/-- roundHalfEven is bounded above by the floor plus one. -/
theorem roundHalfEven_le (q : ℚ) : roundHalfEven q ≤ ⌊q⌋ + 1 := by
  unfold roundHalfEven
  split_ifs <;> omega

/-- roundHalfEven is monotone. -/
theorem roundHalfEven_mono {a b : ℚ} (hab : a ≤ b) : roundHalfEven a ≤ roundHalfEven b := by
  rcases lt_or_eq_of_le (Int.floor_le_floor hab) with hlt | heq
  · calc roundHalfEven a ≤ ⌊a⌋ + 1 := roundHalfEven_le a
      _ ≤ ⌊b⌋ := by omega
      _ ≤ roundHalfEven b := le_roundHalfEven b
  · unfold roundHalfEven
    rw [← heq]
    split_ifs <;> first | omega | (exfalso; linarith)

/-- round2 is monotone. -/
theorem round2_mono {a b : ℚ} (hab : a ≤ b) : round2 a ≤ round2 b := by
  unfold round2
  have h := roundHalfEven_mono (a := a * 100) (b := b * 100) (by linarith)
  have h2 : ((roundHalfEven (a * 100) : ℚ)) ≤ ((roundHalfEven (b * 100) : ℚ)) := by
    exact_mod_cast h
  linarith

/-- The boolean filter test holds exactly on parseable sessions past the cutoff. -/
theorem keepAt_eq_true {c : ℕ} {s : Session} :
    keepAt c s = true ↔ ∃ t, s.start_time = PyStr.ts t ∧ c ≤ dateOf t := by
  cases hst : s.start_time with
  | ts t => simp [keepAt, hst]
  | raw str => simp [keepAt, hst]

/-- A successful run of the comprehension returns exactly the keepAt filter. -/
theorem filterSessions_eq_filter {l : List Session} {c : ℕ} {l2 : List Session}
    (h : filterSessions l c = .ok l2) : l2 = l.filter (keepAt c) := by
  induction l generalizing l2 with
  | nil =>
    simp [filterSessions] at h
    simp [h]
  | cons s rest ih =>
    cases hst : s.start_time with
    | raw str =>
      simp [filterSessions, hst, fromisoformat] at h
    | ts t =>
      cases hr : filterSessions rest c with
      | error e =>
        simp [filterSessions, hst, fromisoformat, hr] at h
      | ok tail =>
        simp only [filterSessions, hst, fromisoformat, hr] at h
        have htail := ih hr
        by_cases hc : c ≤ dateOf t
        · rw [if_pos hc] at h
          injection h with h2
          simp [← h2, List.filter_cons, keepAt, hst, hc, htail]
        · rw [if_neg hc] at h
          injection h with h2
          simp [← h2, List.filter_cons, keepAt, hst, hc, htail]

/-- On a list whose start times all parse, the comprehension succeeds and returns the
keepAt filter. -/
theorem filterSessions_ok {l : List Session} {c : ℕ}
    (h : ∀ s ∈ l, s.start_time.isTs = true) :
    filterSessions l c = .ok (l.filter (keepAt c)) := by
  induction l with
  | nil => simp [filterSessions]
  | cons s rest ih =>
    have hs := h s (by simp)
    cases hst : s.start_time with
    | raw str => rw [hst] at hs; simp [PyStr.isTs] at hs
    | ts t =>
      have ih2 := ih (fun x hx => h x (by simp [hx]))
      simp only [filterSessions, hst, fromisoformat, ih2]
      by_cases hc : c ≤ dateOf t
      · simp [List.filter_cons, keepAt, hst, hc]
      · simp [List.filter_cons, keepAt, hst, hc]

/-- C1: evaluation of the code at the failing input: saving any ledger (here a
one-session ledger over its own file) leaves the file unreadable and raises TypeError,
and the subsequent load fails with JSONDecodeError instead of reproducing the ledger,
so save then load never round-trips. -/
theorem C1_save_then_load_fails :
    save_data sampleFull (.present (.jsonOf sampleFull)) =
      (.present .invalid, .error .typeError) ∧
    load_data (save_data sampleFull (.present (.jsonOf sampleFull))).1 =
      .error .jsonDecodeError :=
  ⟨rfl, rfl⟩

/-- C2: evaluation of the code at the failing input: ending a session begun 1.5 hours
(5400 seconds) earlier appends exactly one session with duration 3/2 = 1.50 in memory,
but the save raises TypeError and truncates the backing file, so the updated ledger is
not persisted. -/
theorem C2_end_session_not_persisted :
    end_session emptyData (.present (.jsonOf emptyData)) (.ts 0) "writing" "draft" 5400 =
      (⟨[⟨PyStr.ts 0, PyStr.ts 5400, 3/2, "writing", "draft"⟩], []⟩,
       .present .invalid, .error .typeError) := by
  simp [end_session, fromisoformat, save_data, emptyData]
  rw [round2_eq _ 150 (by norm_num)]
  norm_num

/-- C3 counterexample: the claim that a negative-duration session is never recorded is
false: ending a session whose recorded start (instant 7200) lies after the current
time (instant 3600) appends a session with duration -1, and no ValueError or other
validity error is signalled for it (the error that does escape is save_data's
TypeError). -/
theorem C3_counterexample :
    (end_session emptyData (.present (.jsonOf emptyData)) (.ts 7200) "coding" "late" 3600).1.sessions =
      [{ start_time := PyStr.ts 7200, end_time := PyStr.ts 3600, duration := -1,
         category := "coding", description := "late" }] ∧
    ((-1 : ℚ) < 0) ∧
    (end_session emptyData (.present (.jsonOf emptyData)) (.ts 7200) "coding" "late" 3600).2.2 ≠
      .error .valueError := by
  have hd : round2 (-1 : ℚ) = -1 := by
    rw [round2_eq _ (-100) (by norm_num)]
    norm_num
  refine ⟨?_, by norm_num, ?_⟩
  · simp [end_session, fromisoformat, save_data, emptyData, hd]
  · simp [end_session, fromisoformat, save_data, emptyData]

/-- C3 amended: an unparseable start_time raises ValueError before anything is
appended; but there is no end-before-start check at all: for every parseable
start_time the session is appended unconditionally, with duration equal to the
rounded (possibly negative) difference in hours. -/
theorem C3_end_session_no_guard (data : DWData) (fs : FileState)
    (category description : String) (now : ℕ) :
    (∀ s, end_session data fs (.raw s) category description now =
      (data, fs, .error .valueError)) ∧
    (∀ t, (end_session data fs (.ts t) category description now).1.sessions =
      data.sessions ++
        [{ start_time := PyStr.ts t, end_time := PyStr.ts now,
           duration := round2 ((((now : ℤ) - (t : ℤ) : ℤ) : ℚ) / 3600),
           category := category, description := description }]) :=
  ⟨fun _ => rfl, fun _ => rfl⟩

/-- C4 counterexample: at current instant 0 (day 0), a session dated day 7 is counted
by the daily summary although its start date is not today, and by the weekly summary
although its start date does not fall within the current week (days 0 to 6). -/
theorem C4_counterexample :
    (get_summary dataFuture .daily 0).map Summary.num_sessions = .ok 1 ∧
    dateOf 604800 ≠ dateOf 0 ∧
    (get_summary dataFuture .weekly 0).map Summary.num_sessions = .ok 1 ∧
    ¬(dateOf 604800 < startDateCutoff .weekly 0 + 7) :=
  ⟨rfl, by decide, rfl, by decide⟩

/-- C4 amended: whenever the filtering succeeds, the daily summary is computed from
exactly the sessions whose start date is greater than or equal to today, and the
weekly summary from exactly those whose start date is greater than or equal to the
Monday of the current week; the source compares with a lower bound only, so equality
with today (daily) and an upper week bound (weekly) are not enforced. -/
theorem C4_count_iff_ge (data : DWData) (now : ℕ) (sess : Session) :
    (∀ l, filterSessions data.sessions (startDateCutoff .daily now) = .ok l →
      get_summary data .daily now = .ok (summarize l) ∧
      (sess ∈ l ↔ sess ∈ data.sessions ∧
        ∃ t, sess.start_time = PyStr.ts t ∧ dateOf now ≤ dateOf t)) ∧
    (∀ l, filterSessions data.sessions (startDateCutoff .weekly now) = .ok l →
      get_summary data .weekly now = .ok (summarize l) ∧
      (sess ∈ l ↔ sess ∈ data.sessions ∧
        ∃ t, sess.start_time = PyStr.ts t ∧
          dateOf now - weekday (dateOf now) ≤ dateOf t)) := by
  constructor
  · intro l hl
    constructor
    · simp [get_summary, hl, Except.map]
    · rw [filterSessions_eq_filter hl, List.mem_filter]
      rw [keepAt_eq_true]
      simp [startDateCutoff]
  · intro l hl
    constructor
    · simp [get_summary, hl, Except.map]
    · rw [filterSessions_eq_filter hl, List.mem_filter]
      rw [keepAt_eq_true]
      simp [startDateCutoff]

/-- C4 witness: the amended statement applied to a concrete ledger whose single
session starts on day 0, at current instant 0. -/
theorem C4_count_iff_ge_witness :
    sampleSession ∈ [sampleSession] ↔ sampleSession ∈ sampleFull.sessions ∧
      ∃ t, sampleSession.start_time = PyStr.ts t ∧ dateOf 0 ≤ dateOf t :=
  ((C4_count_iff_ge sampleFull 0 sampleSession).1 [sampleSession] rfl).2

/-- C5 counterexample: with a stored negative duration outside the current week (a
value load_data accepts and end_session itself can produce), the weekly category_time
for focus is 3 while the all-period value is 1, so weekly exceeds all and the claimed
inequality fails. Current instant is day 9, so the week starts on day 7. -/
theorem C5_counterexample :
    (get_summary dataNeg .weekly 777600).map (fun s => s.category_time "focus") = .ok 3 ∧
    (get_summary dataNeg .all 777600).map (fun s => s.category_time "focus") = .ok 1 ∧
    ¬((3 : ℚ) ≤ 1) := by
  have h1 : get_summary dataNeg .weekly 777600 = .ok (summarize [weekSession]) := rfl
  have h2 : get_summary dataNeg .all 777600 = .ok (summarize [weekSession, oldNegSession]) := rfl
  have e1 : (summarize [weekSession]).category_time "focus" = 3 := by
    simp [summarize, weekSession, List.filter_cons]
    rw [round2_eq _ 300 (by norm_num)]
    norm_num
  have e2 : (summarize [weekSession, oldNegSession]).category_time "focus" = 1 := by
    simp [summarize, weekSession, oldNegSession, List.filter_cons]
    rw [round2_eq _ 100 (by norm_num)]
    norm_num
  refine ⟨?_, ?_, by norm_num⟩
  · rw [h1]; simp [Except.map, e1]
  · rw [h2]; simp [Except.map, e2]

/-- C5 amended: whenever every stored session duration is nonnegative, each weekly
category_time value is at most the corresponding all-period value. -/
theorem C5_weekly_le_all_of_nonneg (data : DWData) (now : ℕ) (cat : String)
    (wS aS : Summary)
    (hnn : ∀ s ∈ data.sessions, 0 ≤ s.duration)
    (hW : get_summary data .weekly now = .ok wS)
    (hA : get_summary data .all now = .ok aS) :
    wS.category_time cat ≤ aS.category_time cat := by
  unfold get_summary at hW hA
  cases hw : filterSessions data.sessions (startDateCutoff .weekly now) with
  | error e => rw [hw] at hW; simp [Except.map] at hW
  | ok lw =>
    cases ha : filterSessions data.sessions (startDateCutoff .all now) with
    | error e => rw [ha] at hA; simp [Except.map] at hA
    | ok la =>
      rw [hw] at hW; rw [ha] at hA
      simp only [Except.map, Except.ok.injEq] at hW hA
      have hsub : lw.Sublist la := by
        rw [filterSessions_eq_filter hw, filterSessions_eq_filter ha]
        apply List.monotone_filter_right
        intro s hs
        rw [keepAt_eq_true] at hs ⊢
        obtain ⟨t, ht, _⟩ := hs
        exact ⟨t, ht, by simp [startDateCutoff]⟩
      have hsub2 : ((lw.filter (fun s => s.category == cat)).map (fun s => s.duration)).Sublist
          ((la.filter (fun s => s.category == cat)).map (fun s => s.duration)) :=
        (hsub.filter _).map _
      have hnn2 : ∀ q ∈ (la.filter (fun s => s.category == cat)).map (fun s => s.duration),
          0 ≤ q := by
        intro q hq
        rw [List.mem_map] at hq
        obtain ⟨s, hs, hsq⟩ := hq
        rw [List.mem_filter] at hs
        have hmem : s ∈ data.sessions := by
          have := filterSessions_eq_filter ha
          rw [this] at hs
          exact List.mem_of_mem_filter hs.1
        rw [← hsq]
        exact hnn s hmem
      have hsum := List.Sublist.sum_le_sum hsub2 hnn2
      rw [← hW, ← hA]
      simp only [summarize]
      exact round2_mono hsum

/-- C5 witness: the amended statement applied at day 9 to a ledger whose single
session lies on day 0 outside the current week, with nonnegative duration. -/
theorem C5_weekly_le_all_witness :
    (summarize []).category_time "focus" ≤ (summarize [sampleSession]).category_time "focus" :=
  C5_weekly_le_all_of_nonneg sampleFull 777600 "focus" (summarize []) (summarize [sampleSession])
    (by
      intro s hs
      simp [sampleFull, sampleSession] at hs
      rw [hs]
      norm_num [sampleSession])
    rfl rfl

/-- C6: evaluation of the code at the failing input: every call to
calculate_productivity_score raises AttributeError, because its first statement reads
self.summary, an attribute the class does not have (the method is get_summary), so no
score is ever returned. -/
theorem C6_score_raises :
    calculate_productivity_score sampleFull 777600 = .error .attributeError :=
  rfl

/-- C7: evaluation of the code at the failing input: with any nonempty goals mapping
(here one goal of 10 hours for focus), track_goals raises AttributeError because it
iterates goals.item(), a method dict does not have, before any actual_hours or
progress_pct figure is computed. -/
theorem C7_track_goals_raises :
    track_goals sampleFull 777600 = .error .attributeError :=
  rfl

/-- C8: load_data yields the empty ledger on a missing file, surfaces JSONDecodeError
on an unreadable file, and yields the empty ledger in no other situation than a
missing file or a file that itself stores the empty ledger. -/
theorem C8_load_fallback :
    load_data .absent = .ok emptyData ∧
    load_data (.present .invalid) = .error .jsonDecodeError ∧
    ∀ fs, load_data fs = .ok emptyData →
      fs = .absent ∨ fs = .present (.jsonOf emptyData) := by
  refine ⟨rfl, rfl, ?_⟩
  intro fs h
  cases fs with
  | absent => exact Or.inl rfl
  | present c =>
    cases c with
    | jsonOf d =>
      right
      simp [load_data] at h
      rw [h]
    | invalid => simp [load_data] at h

/-- C8 witness: the final conjunct applied to the absent file state. -/
theorem C8_load_fallback_witness :
    FileState.absent = FileState.absent ∨
      FileState.absent = FileState.present (.jsonOf emptyData) :=
  C8_load_fallback.2.2 .absent rfl

/-- C9: evaluation of the code at the failing input: invoking the program (in
particular the end command with no pending session) raises TypeError from the
misspelled add_argument keyword defualt=25 while the parser is still being built,
before any dispatch, so the NoActiveSession message is never reported; the backing
file is untouched only because of the crash. -/
theorem C9_main_raises :
    main ["end"] (.present (.jsonOf sampleFull)) =
      (.present (.jsonOf sampleFull), .error .typeError) :=
  rfl

/-- C10: on a ledger whose stored start times all parse, the all-period summary total
equals get_total_time: the day-0 cutoff filters nothing out, and both are the rounded
sum of every duration. -/
theorem C10_total_all_eq (data : DWData) (now : ℕ)
    (h : ∀ s ∈ data.sessions, s.start_time.isTs = true) :
    (get_summary data .all now).map Summary.total_time = .ok (get_total_time data) := by
  have h0 : filterSessions data.sessions 0 = .ok (data.sessions.filter (keepAt 0)) :=
    filterSessions_ok h
  have hfe : data.sessions.filter (keepAt 0) = data.sessions := by
    apply List.filter_eq_self.mpr
    intro s hs
    have hv := h s hs
    cases hst : s.start_time with
    | raw str => rw [hst] at hv; simp [PyStr.isTs] at hv
    | ts t => simp [keepAt, hst]
  rw [hfe] at h0
  simp only [get_summary, startDateCutoff, h0, Except.map]
  simp [summarize, get_total_time]

/-- C10 witness: the equality applied to a concrete one-session ledger with a
parseable start time. -/
theorem C10_total_all_eq_witness :
    (get_summary sampleFull .all 0).map Summary.total_time = .ok (get_total_time sampleFull) :=
  C10_total_all_eq sampleFull 0
    (by
      intro s hs
      simp [sampleFull, sampleSession] at hs
      rw [hs]
      rfl)

end DeepWork
